import Mathlib

/-!
# Verification of the go-travel itinerary core (scorer + router)

Shallow embedding of `backend/scoring.py` (class `UtilityScorer`) and
`backend/solver.py` (class `ItinerarySolver`).  Python floats are modelled
as real numbers; Python `int()` truncation, `round(x, 2)` (banker's
rounding) and dictionary access with defaults are modelled explicitly.
The external OR-Tools solver is abstracted as an oracle producing, per
vehicle, the walked (node, cumulative-time) sequence; everything the
repository itself computes is embedded directly.
-/

namespace GoTravel

noncomputable section

open Real

/-! ## Shared numeric helpers -/

/-- Python `math.radians`: degrees to radians. -/
def radians (d : ℝ) : ℝ := d * Real.pi / 180

/-- Python `math.atan2 y x` (four-quadrant arctangent). -/
def atan2 (y x : ℝ) : ℝ :=
  if 0 < x then Real.arctan (y / x)
  else if x < 0 then
    (if 0 ≤ y then Real.arctan (y / x) + Real.pi else Real.arctan (y / x) - Real.pi)
  else (if 0 < y then Real.pi / 2 else if y < 0 then -(Real.pi / 2) else 0)

/-- Python `int(x)`: truncation toward zero. -/
def pyInt (x : ℝ) : ℤ := if 0 ≤ x then ⌊x⌋ else ⌈x⌉

/-- Python `round` to an integer: round half to even (banker's rounding). -/
def roundHalfEven (x : ℝ) : ℤ :=
  if Int.fract x = 1 / 2 then 2 * round (x / 2) else round x

/-- Python `round(x, 2)` on a float, modelled exactly over ℝ. -/
def pyRound2 (x : ℝ) : ℝ := (roundHalfEven (100 * x) : ℝ) / 100

/-- Python `str.lower()`, character-wise (agrees with `String.toLower` and
written via `List.map` so that it evaluates by kernel reduction). -/
def pyLower (s : String) : String := ⟨s.data.map Char.toLower⟩

/-- Python `str.strip()`: whitespace removed from both ends. -/
def pyStrip (s : String) : String :=
  ⟨((s.data.dropWhile Char.isWhitespace).reverse.dropWhile Char.isWhitespace).reverse⟩

/-- Embedding of `UtilityScorer.EARTH_RADIUS_KM` (also `ItinerarySolver.EARTH_RADIUS_KM`). -/
def EARTH_RADIUS_KM : ℝ := 6371.0

/-- Embedding of `UtilityScorer.haversine_distance` (line-for-line; `ItinerarySolver`
declares the identical function). -/
def haversine_distance (lat1 lng1 lat2 lng2 : ℝ) : ℝ :=
  let lat1_rad := radians lat1
  let lat2_rad := radians lat2
  let delta_lat := radians (lat2 - lat1)
  let delta_lng := radians (lng2 - lng1)
  let a := Real.sin (delta_lat / 2) ^ 2 +
    Real.cos lat1_rad * Real.cos lat2_rad * Real.sin (delta_lng / 2) ^ 2
  let c := 2 * atan2 (Real.sqrt a) (Real.sqrt (1 - a))
  EARTH_RADIUS_KM * c

/-! ## Scorer data model (`scoring.py`) -/

/-- Weather dictionary `{'main': str, 'temp': float}`; fields may be missing. -/
structure Weather where
  main : Option String
  temp : Option ℝ

/-- An input place dictionary as consumed by `CandidatePlace.from_dict`;
every key may be absent (`dict.get` defaults are applied in `fromDict`). -/
structure PlaceInput where
  name : Option String
  lat : Option ℝ
  lng : Option ℝ
  types : Option (List String)
  rating : Option ℝ
  user_ratings_total : Option ℤ
  category : Option String
  why : Option String
  place_id : Option String
  formatted_address : Option String
  photo_url : Option String

/-- Embedding of `scoring.CandidatePlace`. -/
structure CandidatePlace where
  name : String
  lat : Option ℝ
  lng : Option ℝ
  types : List String
  rating : Option ℝ
  user_ratings_total : Option ℤ
  category : String
  why : String
  place_id : Option String
  formatted_address : Option String
  photo_url : Option String
  score : ℝ

/-- Embedding of `CandidatePlace.from_dict`. -/
def CandidatePlace.fromDict (data : PlaceInput) : CandidatePlace where
  name := data.name.getD ""
  lat := data.lat
  lng := data.lng
  types := data.types.getD []
  rating := data.rating
  user_ratings_total := data.user_ratings_total
  category := data.category.getD ""
  why := data.why.getD ""
  place_id := data.place_id
  formatted_address := data.formatted_address
  photo_url := data.photo_url
  score := 0.0

/-- The dictionary produced by `CandidatePlace.to_dict` (note the
`round(self.score, 2)` on the score field). -/
structure OutDict where
  name : String
  lat : Option ℝ
  lng : Option ℝ
  types : List String
  rating : Option ℝ
  user_ratings_total : Option ℤ
  category : String
  why : String
  place_id : Option String
  formatted_address : Option String
  photo_url : Option String
  score : ℝ

/-- Embedding of `CandidatePlace.to_dict`. -/
def CandidatePlace.toDict (c : CandidatePlace) : OutDict where
  name := c.name
  lat := c.lat
  lng := c.lng
  types := c.types
  rating := c.rating
  user_ratings_total := c.user_ratings_total
  category := c.category
  why := c.why
  place_id := c.place_id
  formatted_address := c.formatted_address
  photo_url := c.photo_url
  score := pyRound2 c.score

/-- Embedding of `UtilityScorer.DISTANCE_DECAY_RATE` (the constant as written in the
source; the docstrings of `calculate_distance_multiplier` and
`calculate_score` instead document the value 0.15). -/
def DISTANCE_DECAY_RATE : ℝ := 0.05

/-- Embedding of `UtilityScorer.MIN_SCORE_THRESHOLD`. -/
def MIN_SCORE_THRESHOLD : ℝ := 40.0

/-- Embedding of `UtilityScorer.OUTDOOR_TYPES`. -/
def OUTDOOR_TYPES : List String :=
  ["park", "zoo", "amusement_park", "campground", "stadium",
   "natural_feature", "hiking_area", "beach", "garden", "nature", "outdoor"]

/-- Embedding of `UtilityScorer.BAD_WEATHER_CONDITIONS`. -/
def BAD_WEATHER_CONDITIONS : List String := ["Rain", "Drizzle", "Thunderstorm", "Snow"]

/-- Embedding of `UtilityScorer.calculate_base_score`. -/
def calculate_base_score (rating : Option ℝ) : ℝ :=
  match rating with
  | none => 60.0
  | some r => max 0.0 (min 5.0 r) * 20.0

/-- Embedding of `UtilityScorer.calculate_distance_multiplier`. -/
def calculate_distance_multiplier (place_lat place_lng : Option ℝ)
    (centroid_lat centroid_lng : ℝ) : ℝ :=
  match place_lat, place_lng with
  | some plat, some plng =>
      Real.exp (-DISTANCE_DECAY_RATE * haversine_distance plat plng centroid_lat centroid_lng)
  | _, _ => 0.5

/-- The `is_outdoor` test inside `calculate_weather_multiplier`:
`any(t.lower() in OUTDOOR_TYPES for t in place_types + [place_category])`. -/
def isOutdoor (place_types : List String) (place_category : String) : Bool :=
  (place_types ++ [place_category]).any (fun t => pyLower t ∈ OUTDOOR_TYPES)

/-- Embedding of `UtilityScorer.calculate_weather_multiplier`. -/
def calculate_weather_multiplier (place_types : List String) (place_category : String)
    (weather : Option Weather) : ℝ :=
  match weather with
  | none => 1.0
  | some w =>
    if isOutdoor place_types place_category = false then 1.0
    else
      let main_condition := pyStrip (w.main.getD "")
      let temp_celsius := w.temp.getD 20.0
      let m1 : ℝ := 1.0
      let m2 := if main_condition ∈ BAD_WEATHER_CONDITIONS then m1 * 0.3 else m1
      let m3 := if temp_celsius < 5.0 then m2 * 0.5 else m2
      m3

/-- Embedding of `UtilityScorer.calculate_social_proof_bonus`. -/
def calculate_social_proof_bonus (user_ratings_total : Option ℤ) : ℝ :=
  match user_ratings_total with
  | none => 0.0
  | some n => if n ≥ 1000 then 10.0 else if n ≥ 100 then 5.0 else 0.0

/-- Embedding of `UtilityScorer.calculate_score`. -/
def calculate_score (place : CandidatePlace) (weather : Option Weather)
    (centroid_lat centroid_lng : ℝ) : ℝ :=
  let base_score := calculate_base_score place.rating
  let distance_mult :=
    calculate_distance_multiplier place.lat place.lng centroid_lat centroid_lng
  let weather_mult := calculate_weather_multiplier place.types place.category weather
  let social_bonus := calculate_social_proof_bonus place.user_ratings_total
  base_score * distance_mult * weather_mult + social_bonus

/-! ## Ranking pipeline (`UtilityScorer.rank_places`)

Python's `list.sort(key=..., reverse=True)` is a *stable* descending sort.
A stable sort for a given total preorder is unique, so we embed it as the
canonical stable descending insertion sort on the score key. -/

/-- Insert `x` into an (already descending-sorted) list, before the first
element whose score does not exceed `x`'s: the insertion step of the
stable descending sort. -/
def insertDesc (key : CandidatePlace → ℝ) (x : CandidatePlace) :
    List CandidatePlace → List CandidatePlace
  | [] => [x]
  | y :: ys => if key y ≤ key x then x :: y :: ys else y :: insertDesc key x ys

/-- Stable descending sort by a real key: the embedding of
`qualified.sort(key=lambda c: c.score, reverse=True)`. -/
def sortDesc (key : CandidatePlace → ℝ) : List CandidatePlace → List CandidatePlace
  | [] => []
  | a :: l => insertDesc key a (sortDesc key l)

/-- The optional centroid argument `{'lat': ..., 'lng': ...}` to `rank_places`. -/
structure Centroid where
  lat : Option ℝ
  lng : Option ℝ

/-- Centroid resolution inside `rank_places`: the provided centroid's
entries (default 0.0), else the mean of all valid coordinates, else (0, 0). -/
def resolveCentroid (candidates : List CandidatePlace) (centroid : Option Centroid) : ℝ × ℝ :=
  match centroid with
  | some c => (c.lat.getD 0.0, c.lng.getD 0.0)
  | none =>
    let valid_coords := candidates.filterMap (fun c =>
      match c.lat, c.lng with
      | some la, some ln => some (la, ln)
      | _, _ => none)
    if valid_coords.isEmpty then (0.0, 0.0)
    else ((valid_coords.map Prod.fst).sum / valid_coords.length,
          (valid_coords.map Prod.snd).sum / valid_coords.length)

/-- The scored candidate list: each candidate gets `score` assigned by
`calculate_score` (the mutation loop of `rank_places`). -/
def scoredCandidates (places : List PlaceInput) (weather : Option Weather)
    (centroid : Option Centroid) : List CandidatePlace :=
  let candidates := places.map CandidatePlace.fromDict
  let c := resolveCentroid candidates centroid
  candidates.map (fun cd => { cd with score := calculate_score cd weather c.1 c.2 })

/-- Embedding of `qualified`: the scored candidates with `score >= MIN_SCORE_THRESHOLD`,
still in input order. -/
def qualifiedCandidates (places : List PlaceInput) (weather : Option Weather)
    (centroid : Option Centroid) : List CandidatePlace :=
  (scoredCandidates places weather centroid).filter
    (fun c => decide (MIN_SCORE_THRESHOLD ≤ c.score))

/-- The ranked candidate list (after the stable descending sort). -/
def rankedCandidates (places : List PlaceInput) (weather : Option Weather)
    (centroid : Option Centroid) : List CandidatePlace :=
  sortDesc (fun c => c.score) (qualifiedCandidates places weather centroid)

/-- Embedding of `UtilityScorer.rank_places` (and the module-level `rank_places`): the
full pipeline, returning the output dictionaries. -/
def rank_places (places : List PlaceInput) (weather : Option Weather)
    (centroid : Option Centroid) : List OutDict :=
  if places.isEmpty then []
  else (rankedCandidates places weather centroid).map CandidatePlace.toDict

/-- State-threaded form of `rank_places`: the first component is the input
store of place dictionaries after the call.  `rank_places` only ever writes
to the `score` attribute of the freshly built `CandidatePlace` copies
(`from_dict` copies every field), so the store is returned unchanged. -/
def rank_places_state (places : List PlaceInput) (weather : Option Weather)
    (centroid : Option Centroid) : List PlaceInput × List OutDict :=
  (places, rank_places places weather centroid)

/-! ## Router data model (`solver.py`) -/

/-- Embedding of `ItinerarySolver.AVERAGE_SPEED_KMH`. -/
def AVERAGE_SPEED_KMH : ℝ := 12.0

/-- Embedding of `ItinerarySolver.DAY_START_TIME` (9:00 AM, minutes from midnight). -/
def DAY_START_TIME : ℤ := 540

/-- Embedding of `ItinerarySolver.DAY_END_TIME` (10:00 PM, minutes from midnight). -/
def DAY_END_TIME : ℤ := 1320

/-- Embedding of `ItinerarySolver.MAX_DAY_DURATION` (13 hours in minutes). -/
def MAX_DAY_DURATION : ℤ := 780

/-- Embedding of `ItinerarySolver.DEFAULT_VISIT_DURATION`. -/
def DEFAULT_VISIT_DURATION : ℤ := 60

/-- Embedding of `ItinerarySolver.VISIT_DURATIONS` (category to minutes). -/
def VISIT_DURATIONS : List (String × ℤ) :=
  [("landmark", 45), ("museum", 120), ("restaurant", 75), ("nature", 90),
   ("nightlife", 120), ("club", 120), ("bar", 90), ("shopping", 60),
   ("cultural", 60), ("cafe", 30), ("breakfast", 45), ("brunch", 60),
   ("lunch", 60), ("dinner", 90)]

/-- Embedding of `ItinerarySolver.CATEGORY_TIME_WINDOWS` (earliest/latest visit start,
minutes from midnight). -/
def CATEGORY_TIME_WINDOWS : List (String × (ℤ × ℤ)) :=
  [("breakfast", (540, 660)), ("brunch", (600, 780)), ("cafe", (480, 1080)),
   ("museum", (540, 900)), ("landmark", (540, 1020)), ("cultural", (540, 1020)),
   ("nature", (540, 1020)), ("shopping", (600, 1080)),
   ("lunch", (720, 840)), ("restaurant", (720, 1200)), ("dinner", (1080, 1260)),
   ("nightlife", (1080, 1380)), ("club", (1260, 1440)), ("bar", (1080, 1380))]

/-- Embedding of `ItinerarySolver.get_visit_duration`:
`VISIT_DURATIONS.get(category.lower(), DEFAULT_VISIT_DURATION)`. -/
def get_visit_duration (category : String) : ℤ :=
  ((VISIT_DURATIONS.lookup (pyLower category)).getD DEFAULT_VISIT_DURATION)

/-- A place dict as consumed by the solver (`lat`, `lng`, `score`,
`category`, opening hours and display fields, each possibly absent).
`opening_hours["by_day"]` maps a weekday to `{"open": .., "close": ..}`,
modelled as an association list of `(weekday, (open, close))`. -/
structure SolverPlace where
  place_id : Option String
  name : Option String
  lat : Option ℝ
  lng : Option ℝ
  score : Option ℝ
  category : Option String
  why : Option String
  formatted_address : Option String
  opening_hours : Option (List (ℤ × ℤ × ℤ))

/-- The opening hours lookup in `get_time_window`: requires a truthy
`opening_hours` dict with a truthy `by_day` entry that contains the
weekday.  Returns `(open, close)` minutes. -/
def openingHoursFor (opening_hours : Option (List (ℤ × ℤ × ℤ))) (day_of_week : ℤ) :
    Option (ℤ × ℤ) :=
  match opening_hours with
  | none => none
  | some by_day =>
    if by_day.isEmpty then none
    else match by_day.lookup day_of_week with
      | some hours => some hours
      | none => none

/-- Embedding of `ItinerarySolver.get_time_window`, following the source's imperative
flow: category defaults, refinement by opening hours (with the empty-
intersection fallback), then the final clamp to day boundaries. -/
def get_time_window (place : SolverPlace) (day_of_week : ℤ) : ℤ × ℤ :=
  let category := pyLower (place.category.getD "")
  let visit_duration := get_visit_duration category
  let w0 : ℤ × ℤ :=
    match CATEGORY_TIME_WINDOWS.lookup category with
    | some w => w
    | none => (DAY_START_TIME, DAY_END_TIME - visit_duration)
  let w1 : ℤ × ℤ :=
    match openingHoursFor place.opening_hours day_of_week with
    | none => w0
    | some hours =>
      let place_opens := hours.1
      let place_closes := hours.2
      let earliest := max w0.1 place_opens
      let latest := min w0.2 (place_closes - visit_duration)
      if earliest > latest then (place_opens, max place_opens (place_closes - visit_duration))
      else (earliest, latest)
  let earliest := max w1.1 DAY_START_TIME
  let latest := min w1.2 (DAY_END_TIME - visit_duration)
  (earliest, max latest earliest)

/-- The time-window derivation as the specification words it: start from
the category-based default window (the full day when the category is
unknown), intersect with `[open, close - visit_duration]` when opening
hours for the weekday are known, fall back to the raw opening-hours
window when the intersection is empty, and finally clamp to the day
boundaries. -/
def specTimeWindow (place : SolverPlace) (day_of_week : ℤ) : ℤ × ℤ :=
  let category := pyLower (place.category.getD "")
  let dur := get_visit_duration category
  let base : ℤ × ℤ :=
    match CATEGORY_TIME_WINDOWS.lookup category with
    | some w => w
    | none => (DAY_START_TIME, DAY_END_TIME - dur)
  let refined : ℤ × ℤ :=
    match openingHoursFor place.opening_hours day_of_week with
    | none => base
    | some hours =>
      let intersection := (max base.1 hours.1, min base.2 (hours.2 - dur))
      if intersection.1 ≤ intersection.2 then intersection
      else (hours.1, max hours.1 (hours.2 - dur))
  let clampedE := max refined.1 DAY_START_TIME
  let clampedL := min refined.2 (DAY_END_TIME - dur)
  (clampedE, max clampedL clampedE)

/-- Embedding of `ItinerarySolver.calculate_travel_time`: minutes for the haversine
distance at the average transit speed, truncated, plus a 10-minute buffer. -/
def calculate_travel_time (lat1 lng1 lat2 lng2 : ℝ) : ℤ :=
  let distance_km := haversine_distance lat1 lng1 lat2 lng2
  let travel_hours := distance_km / AVERAGE_SPEED_KMH
  let travel_minutes := pyInt (travel_hours * 60)
  travel_minutes + 10

/-- Python's `x or default` coercion used for coordinates in
`create_data_model` (`None` *and* `0.0` are falsy). -/
def pyOr (x : Option ℝ) (default : ℝ) : ℝ :=
  match x with
  | none => default
  | some v => if v = 0 then default else v

/-- The location list of the data model: depot first, then each place's
coordinates (falling back to the hotel's through Python `or`). -/
def locationsOf (places : List SolverPlace) (hotel : ℝ × ℝ) : List (ℝ × ℝ) :=
  hotel :: places.map (fun p => (pyOr p.lat hotel.1, pyOr p.lng hotel.2))

/-- One entry of the travel-time matrix: 0 on the diagonal, otherwise
`calculate_travel_time` between the two locations. -/
def timeMatrixEntry (locations : List (ℝ × ℝ)) (i j : ℕ) : ℤ :=
  if i = j then 0
  else
    let a := locations.getD i (0, 0)
    let b := locations.getD j (0, 0)
    calculate_travel_time a.1 a.2 b.1 b.2

/-- The OR-Tools data model assembled by `create_data_model`. -/
structure DataModel where
  time_matrix : List (List ℤ)
  service_times : List ℤ
  prizes : List ℤ
  penalties : List ℤ
  time_windows : List (ℤ × ℤ)
  num_vehicles : ℤ
  depot : ℕ
  num_locations : ℕ
  locations : List (ℝ × ℝ)
  places : List SolverPlace
  max_time_per_vehicle : ℤ

/-- Embedding of `ItinerarySolver.create_data_model`. -/
def create_data_model (places : List SolverPlace) (hotel_coords : ℝ × ℝ)
    (num_days : ℤ) : DataModel :=
  let locations := locationsOf places hotel_coords
  let n := locations.length
  { time_matrix := (List.range n).map (fun i => (List.range n).map (timeMatrixEntry locations i))
    service_times := 0 :: places.map (fun p => get_visit_duration (p.category.getD "landmark"))
    prizes := 0 :: places.map (fun p => pyInt ((p.score.getD 50.0) * 10))
    penalties := 0 :: places.map (fun p => pyInt ((p.score.getD 50.0) * 10))
    time_windows := (0, MAX_DAY_DURATION) :: places.map (fun p =>
      let w := get_time_window p 1
      (max 0 (w.1 - DAY_START_TIME), min MAX_DAY_DURATION (w.2 - DAY_START_TIME)))
    num_vehicles := num_days
    depot := 0
    num_locations := places.length + 1
    locations := locations
    places := places
    max_time_per_vehicle := MAX_DAY_DURATION }

/-! ## Solving and extraction (`ItinerarySolver.solve`, `_extract_solution`)

OR-Tools (`pywrapcp.RoutingModel` + `SolveWithParameters`) is external
native code; it is abstracted as an oracle that, given the data model and
the time limit, either fails (`none`) or returns, for each vehicle, the
walk of `(IndexToNode index, CumulVar value)` pairs for the visited
indices *after* the vehicle's start index, in visiting order and with the
end sentinel excluded.  (The start index itself always maps to depot node
0 and contributes nothing to the loop except the `previous_index ==
routing.Start(vehicle)` test, which corresponds to `prev = none` below.) -/

/-- The per-vehicle walks the solver oracle returns. -/
def AbstractSolution : Type := ℕ → List (ℕ × ℤ)

/-- The abstracted OR-Tools solver. -/
def SolverOracle : Type := DataModel → ℤ → Option AbstractSolution

/-- Embedding of `solver.ItineraryItem`. -/
structure ItineraryItem where
  place_id : String
  name : String
  lat : ℝ
  lng : ℝ
  arrival_time : ℤ
  departure_time : ℤ
  duration : ℤ
  score : ℝ
  category : String
  why : String
  formatted_address : Option String

/-- Embedding of `solver.DayItinerary`. -/
structure DayItinerary where
  day_number : ℕ
  items : List ItineraryItem
  total_travel_time : ℤ
  total_visit_time : ℤ
  total_score : ℝ

/-- A fresh `DayItinerary(day_number=k)` with default (zero) aggregates. -/
def emptyDay (k : ℕ) : DayItinerary :=
  { day_number := k, items := [], total_travel_time := 0,
    total_visit_time := 0, total_score := 0 }

/-- Embedding of `[DayItinerary(day_number=i+1) for i in range(num_days)]`. -/
def emptyDays (num_days : ℤ) : List DayItinerary :=
  (List.range num_days.toNat).map (fun i => emptyDay (i + 1))

/-- Fallback used to model Python's `data["places"][node - 1]` list
indexing inside the extraction loop (in any solver-produced walk the node
is in range, so the fallback is never reached). -/
def defaultSolverPlace : SolverPlace :=
  { place_id := none, name := none, lat := none, lng := none, score := none,
    category := none, why := none, formatted_address := none, opening_hours := none }

/-- Access `data["time_matrix"][i][j]`. -/
def timeMatrixAt (data : DataModel) (i j : ℕ) : ℤ :=
  (data.time_matrix.getD i []).getD j 0

/-- The body of the per-vehicle `while not routing.IsEnd(index)` loop of
`_extract_solution`, one step per walked index.  `prev = none` encodes
`previous_index == routing.Start(vehicle_id)`. -/
def extractGo (data : DataModel) : Option ℕ → DayItinerary → List (ℕ × ℤ) → DayItinerary
  | _, acc, [] => acc
  | prev, acc, (node, cumul_time) :: rest =>
    let acc' :=
      if node = 0 then acc
      else
        let place := data.places.getD (node - 1) defaultSolverPlace
        let duration := data.service_times.getD node 0
        let arrival_time := cumul_time - duration
        let departure_time := cumul_time
        let item : ItineraryItem :=
          { place_id := place.place_id.getD ("place_" ++ toString node)
            name := place.name.getD ("Place " ++ toString node)
            lat := place.lat.getD 0
            lng := place.lng.getD 0
            arrival_time := DAY_START_TIME + arrival_time
            departure_time := DAY_START_TIME + departure_time
            duration := duration
            score := place.score.getD 0
            category := place.category.getD ""
            why := place.why.getD ""
            formatted_address := place.formatted_address }
        let travel :=
          match prev with
          | none => 0
          | some prev_node => timeMatrixAt data prev_node node
        { acc with
          items := acc.items ++ [item]
          total_visit_time := acc.total_visit_time + duration
          total_score := acc.total_score + place.score.getD 0
          total_travel_time := acc.total_travel_time + travel }
    extractGo data (some node) acc' rest

/-- Embedding of `ItinerarySolver._extract_solution`: one `DayItinerary` per vehicle. -/
def extract_solution (data : DataModel) (solution : AbstractSolution) : List DayItinerary :=
  (List.range data.num_vehicles.toNat).map (fun vehicle_id =>
    extractGo data none (emptyDay (vehicle_id + 1)) (solution vehicle_id))

/-- The coordinate-validity filter in `solve`:
`p.get("lat") is not None and p.get("lng") is not None`. -/
def validPlaces (places : List SolverPlace) : List SolverPlace :=
  places.filter (fun p => p.lat.isSome && p.lng.isSome)

/-- Centroid of the valid places (used when no hotel is given). -/
def centroidOfValid (valid_places : List SolverPlace) : ℝ × ℝ :=
  ((valid_places.map (fun p => p.lat.getD 0)).sum / valid_places.length,
   (valid_places.map (fun p => p.lng.getD 0)).sum / valid_places.length)

/-- Hotel coordinates as resolved inside `solve`. -/
def hotelOf (places : List SolverPlace) (hotel_coords : Option (ℝ × ℝ)) : ℝ × ℝ :=
  hotel_coords.getD (centroidOfValid (validPlaces places))

/-- The data model `solve` hands to the solver. -/
def modelOf (places : List SolverPlace) (hotel_coords : Option (ℝ × ℝ))
    (num_days : ℤ) : DataModel :=
  create_data_model (validPlaces places) (hotelOf places hotel_coords) num_days

/-- Embedding of `ItinerarySolver.solve`.  The Python function contains no `raise`
statement and no input validation: every branch returns normally, which
the `Except` result records as `Except.ok` everywhere.  The OR-Tools
phase is the oracle argument. -/
def solve (oracle : SolverOracle) (places : List SolverPlace)
    (hotel_coords : Option (ℝ × ℝ)) (num_days : ℤ) (time_limit_seconds : ℤ) :
    Except String (List DayItinerary) :=
  if places.isEmpty then Except.ok (emptyDays num_days)
  else if (validPlaces places).isEmpty then Except.ok (emptyDays num_days)
  else
    let data := modelOf places hotel_coords num_days
    match oracle data time_limit_seconds with
    | some solution => Except.ok (extract_solution data solution)
    | none => Except.ok (emptyDays num_days)

/-! ## Analytic helper lemmas -/

theorem atan2_nonneg {y : ℝ} (x : ℝ) (hy : 0 ≤ y) : 0 ≤ atan2 y x := by
  unfold atan2
  split_ifs with h1 h2 h3 h4
  · have h := Real.arctan_strictMono.monotone (div_nonneg hy h1.le)
    rwa [Real.arctan_zero] at h
  · linarith [Real.neg_pi_div_two_lt_arctan (y / x), Real.pi_pos]
  · linarith [Real.pi_pos]
  · linarith
  · linarith

theorem two_atan2_sqrt_nonneg (a : ℝ) :
    0 ≤ 2 * atan2 (Real.sqrt a) (Real.sqrt (1 - a)) := by
  have h := atan2_nonneg (Real.sqrt (1 - a)) (Real.sqrt_nonneg a)
  linarith

theorem haversine_nonneg (lat1 lng1 lat2 lng2 : ℝ) :
    0 ≤ haversine_distance lat1 lng1 lat2 lng2 := by
  unfold haversine_distance
  dsimp only
  exact mul_nonneg (by norm_num [EARTH_RADIUS_KM]) (two_atan2_sqrt_nonneg _)

theorem haversine_self (lat lng : ℝ) : haversine_distance lat lng lat lng = 0 := by
  unfold haversine_distance radians
  dsimp only
  rw [show (lat - lat) * Real.pi / 180 = 0 by ring,
      show (lng - lng) * Real.pi / 180 = 0 by ring]
  norm_num [atan2, Real.arctan_zero]

theorem haversine_antipodal : haversine_distance 0 180 0 0 = EARTH_RADIUS_KM * Real.pi := by
  unfold haversine_distance radians
  dsimp only
  rw [show ((0:ℝ) - 0) * Real.pi / 180 = 0 by ring,
      show ((0:ℝ) - 180) * Real.pi / 180 = -Real.pi by ring,
      show (0:ℝ) * Real.pi / 180 = 0 by ring]
  rw [show -Real.pi / 2 = -(Real.pi / 2) by ring]
  norm_num [Real.sin_pi_div_two, Real.sin_neg]
  left
  rw [show atan2 1 0 = Real.pi / 2 by norm_num [atan2]]
  ring

theorem distance_multiplier_exp_form (lat lng clat clng : ℝ) :
    calculate_distance_multiplier (some lat) (some lng) clat clng
      = Real.exp (-(0.05) * haversine_distance lat lng clat clng) := by
  simp [calculate_distance_multiplier, DISTANCE_DECAY_RATE]

/-- C1 counterexample: `DISTANCE_DECAY_RATE` is 0.05, not the claimed
0.15 (the docstrings of `calculate_distance_multiplier` and
`calculate_score` still document 0.15, while the comment on the constant
matches 0.05).  At the place (0, 180) with centroid (0, 0) — distance
6371π km — the code's multiplier is `exp(-0.05 * 6371π)`, which is not
`exp(-0.15 * distance)`. -/
theorem c1_claim_counterexample :
    calculate_distance_multiplier (some 0) (some 180) 0 0
      = Real.exp (-(0.05) * (EARTH_RADIUS_KM * Real.pi))
    ∧ calculate_distance_multiplier (some 0) (some 180) 0 0
      ≠ Real.exp (-(0.15) * haversine_distance 0 180 0 0) := by
  constructor
  · rw [distance_multiplier_exp_form, haversine_antipodal]
  · rw [distance_multiplier_exp_form, haversine_antipodal]
    intro h
    have h2 := Real.exp_injective h
    rw [EARTH_RADIUS_KM] at h2
    nlinarith [Real.pi_pos]

/-- A point on the equator exactly 1 km east of (0, 0). -/
noncomputable def oneKmLng : ℝ := 180 / (6371 * Real.pi)

theorem haversine_one_km : haversine_distance 0 oneKmLng 0 0 = 1 := by
  have hpi := Real.pi_pos
  have hL : radians (0 - oneKmLng) = -(1 / 6371) := by
    unfold radians oneKmLng
    field_simp
    ring
  unfold haversine_distance
  dsimp only
  rw [show radians (0 - 0) = 0 from by unfold radians; ring,
      show radians 0 = 0 from by unfold radians; ring, hL]
  have hhalf : -(1 / 6371 : ℝ) / 2 = -(1 / 12742) := by norm_num
  rw [hhalf]
  set t : ℝ := 1 / 12742 with ht
  have ht0 : (0:ℝ) < t := by rw [ht]; norm_num
  have htpi2 : t < Real.pi / 2 := by
    have h3 := Real.pi_gt_three
    have h1 : t < 3 / 2 := by rw [ht]; norm_num
    linarith
  have hsin0 : 0 ≤ Real.sin t := by
    apply Real.sin_nonneg_of_nonneg_of_le_pi ht0.le
    have h3 := Real.pi_gt_three
    have h1 : t < 3 := by rw [ht]; norm_num
    linarith
  have hcos0 : 0 < Real.cos t := Real.cos_pos_of_mem_Ioo ⟨by linarith, htpi2⟩
  norm_num [Real.sin_zero, Real.cos_zero, Real.sin_neg, neg_sq]
  rw [Real.sqrt_sq hsin0, show 1 - Real.sin t ^ 2 = Real.cos t ^ 2 from (Real.cos_sq' t).symm,
      Real.sqrt_sq hcos0.le]
  unfold atan2
  rw [if_pos hcos0,
      show Real.sin t / Real.cos t = Real.tan t from (Real.tan_eq_sin_div_cos t).symm,
      Real.arctan_tan (by linarith) htpi2]
  unfold EARTH_RADIUS_KM
  rw [ht]
  norm_num

/-- The claim's example place under the amended rate: rating 4.5, 1 km
from the centroid, 1500 reviews, not outdoor. -/
noncomputable def oneKmPlace : CandidatePlace :=
  { name := "", lat := some 0, lng := some oneKmLng, types := [],
    rating := some 4.5, user_ratings_total := some 1500, category := "landmark",
    why := "", place_id := none, formatted_address := none, photo_url := none,
    score := 0 }

/-- C1 (amended): for every place with coordinates the distance
multiplier equals `exp(-0.05 * haversine_distance_km(place, centroid))`
(0.05, not 0.15); in particular a place with rating 4.5 located 1 km from
the centroid, under clear weather, with 1500 reviews receives score
`4.5*20 * exp(-0.05*1) * 1.0 + 10` (≈ 95.61, not ≈ 87.46). -/
theorem c1_distance_multiplier_rate_amended :
    (∀ lat lng clat clng : ℝ,
      calculate_distance_multiplier (some lat) (some lng) clat clng
        = Real.exp (-(0.05) * haversine_distance lat lng clat clng))
    ∧ calculate_score oneKmPlace (some clearWeather) 0 0
        = 4.5 * 20 * Real.exp (-(0.05) * 1) * 1.0 + 10 := by
  constructor
  · exact distance_multiplier_exp_form
  · unfold calculate_score
    dsimp only
    rw [show oneKmPlace.lat = some 0 from rfl, show oneKmPlace.lng = some oneKmLng from rfl,
        distance_multiplier_exp_form, haversine_one_km]
    rw [show calculate_base_score oneKmPlace.rating = 4.5 * 20 from by
      norm_num [calculate_base_score, oneKmPlace, min_def, max_def]]
    rw [show calculate_weather_multiplier oneKmPlace.types oneKmPlace.category
          (some clearWeather) = 1 from by
      unfold calculate_weather_multiplier
      rw [show isOutdoor oneKmPlace.types oneKmPlace.category = false from by decide]
      norm_num]
    rw [show calculate_social_proof_bonus oneKmPlace.user_ratings_total = 10 from by
      norm_num [calculate_social_proof_bonus, oneKmPlace]]
    norm_num

/-! ## Weather multiplier facts (claim C7) -/

theorem calculate_distance_multiplier_pos (lat lng : Option ℝ) (clat clng : ℝ) :
    0 < calculate_distance_multiplier lat lng clat clng := by
  cases lat <;> cases lng <;>
    simp [calculate_distance_multiplier, Real.exp_pos] <;> norm_num

/-- The weather dict `{"main": "Rain", "temp": 10}` of the claim. -/
def rainWeather : Weather := { main := some "Rain", temp := some 10 }

/-- The weather dict `{"main": "Clear", "temp": 20}` of the claim. -/
def clearWeather : Weather := { main := some "Clear", temp := some 20 }

theorem weather_mult_rain (types : List String) (cat : String)
    (h : isOutdoor types cat = true) :
    calculate_weather_multiplier types cat (some rainWeather) = 0.3 := by
  unfold calculate_weather_multiplier rainWeather
  rw [h]
  norm_num [BAD_WEATHER_CONDITIONS, show pyStrip "Rain" = "Rain" from by decide]

theorem weather_mult_clear (types : List String) (cat : String)
    (h : isOutdoor types cat = true) :
    calculate_weather_multiplier types cat (some clearWeather) = 1 := by
  unfold calculate_weather_multiplier clearWeather
  rw [h]
  norm_num [BAD_WEATHER_CONDITIONS, show pyStrip "Clear" = "Clear" from by decide]
  decide

/-- C7 (amended): an outdoor place scores *strictly* lower under
`{main: "Rain", temp: 10}` than under `{main: "Clear", temp: 20}` provided
its base score is positive (rating absent, or clamped rating > 0); with a
clamped rating of 0 the two scores coincide (see the counterexample).
Non-outdoor places and calls with absent weather always get multiplier 1. -/
theorem c7_outdoor_rain_amended (p : CandidatePlace) (clat clng : ℝ) :
    (isOutdoor p.types p.category = true → 0 < calculate_base_score p.rating →
      calculate_score p (some rainWeather) clat clng
        < calculate_score p (some clearWeather) clat clng)
    ∧ (isOutdoor p.types p.category = false →
        ∀ w : Weather, calculate_weather_multiplier p.types p.category (some w) = 1)
    ∧ calculate_weather_multiplier p.types p.category none = 1 := by
  refine ⟨?_, ?_, by norm_num [calculate_weather_multiplier]⟩
  · intro hout hbase
    unfold calculate_score
    rw [weather_mult_rain _ _ hout, weather_mult_clear _ _ hout]
    have hd := calculate_distance_multiplier_pos p.lat p.lng clat clng
    nlinarith
  · intro hout w
    unfold calculate_weather_multiplier
    rw [hout]
    norm_num

/-- An outdoor place whose explicit rating 0 clamps its base score to 0. -/
def zeroRatedPark : CandidatePlace :=
  { name := "", lat := none, lng := none, types := ["park"], rating := some 0,
    user_ratings_total := none, category := "nature", why := "", place_id := none,
    formatted_address := none, photo_url := none, score := 0 }

/-- C7 counterexample: `zeroRatedPark` is outdoor, yet its score under
rain equals its score under clear weather (both are 0 + social bonus),
refuting the claim's universal strictness. -/
theorem c7_counterexample :
    isOutdoor zeroRatedPark.types zeroRatedPark.category = true
    ∧ calculate_score zeroRatedPark (some rainWeather) 0 0
        = calculate_score zeroRatedPark (some clearWeather) 0 0 := by
  constructor
  · decide
  · unfold calculate_score
    rw [show calculate_base_score zeroRatedPark.rating = 0 by
      norm_num [calculate_base_score, zeroRatedPark, min_def, max_def]]
    ring

/-- A generic outdoor place with no rating (base score 60). -/
def unratedPark : CandidatePlace :=
  { name := "", lat := none, lng := none, types := ["park"], rating := none,
    user_ratings_total := none, category := "nature", why := "", place_id := none,
    formatted_address := none, photo_url := none, score := 0 }

/-- Witness for C7 (amended) at a concrete outdoor place. -/
theorem c7_outdoor_rain_amended_witness :
    calculate_score unratedPark (some rainWeather) 0 0
      < calculate_score unratedPark (some clearWeather) 0 0 :=
  (c7_outdoor_rain_amended unratedPark 0 0).1 (by decide)
    (by norm_num [calculate_base_score, unratedPark])

/-! ## Frame and default-degradation facts (claim C8) -/

/-- C8: `rank_places` returns the input store of place dictionaries
unchanged (its only writes hit the `score` attribute of the fresh
`CandidatePlace` copies built by `from_dict`; the output dictionaries are
new objects built by `to_dict`), it is total — the embedding is a Lean
function, mirroring that no code path raises on dictionaries with absent
keys — and the documented defaults apply: absent rating gives base score
60, absent coordinates give distance multiplier 0.5, absent review count
gives social bonus 0. -/
theorem c8_rank_places_frame_and_defaults :
    (∀ (ps : List PlaceInput) (w : Option Weather) (c : Option Centroid),
      (rank_places_state ps w c).1 = ps
      ∧ (rank_places_state ps w c).2 = rank_places ps w c)
    ∧ calculate_base_score none = 60
    ∧ (∀ (lng : Option ℝ) (clat clng : ℝ),
        calculate_distance_multiplier none lng clat clng = 0.5)
    ∧ (∀ (lat : Option ℝ) (clat clng : ℝ),
        calculate_distance_multiplier lat none clat clng = 0.5)
    ∧ calculate_social_proof_bonus none = 0 := by
  refine ⟨fun ps w c => ⟨rfl, rfl⟩, by norm_num [calculate_base_score], ?_, ?_,
    by norm_num [calculate_social_proof_bonus]⟩
  · intro lng clat clng
    cases lng <;> norm_num [calculate_distance_multiplier]
  · intro lat clat clng
    cases lat <;> norm_num [calculate_distance_multiplier]

/-! ## Travel-time matrix facts (claim C10) -/

theorem pyInt_nonneg {x : ℝ} (h : 0 ≤ x) : 0 ≤ pyInt x := by
  unfold pyInt
  rw [if_pos h]
  exact Int.floor_nonneg.mpr h

/-- C10: off-diagonal entries of the router's time matrix are
`int(haversine_km / 12.0 * 60) + 10`, hence at least 10 minutes — and
exactly 10 for two distinct nodes at identical coordinates — while every
diagonal entry is 0. -/
theorem c10_time_matrix_entries (locations : List (ℝ × ℝ)) (i j : ℕ) :
    (i ≠ j →
      timeMatrixEntry locations i j
        = pyInt (haversine_distance (locations.getD i (0, 0)).1 (locations.getD i (0, 0)).2
            (locations.getD j (0, 0)).1 (locations.getD j (0, 0)).2 / 12 * 60) + 10
      ∧ 10 ≤ timeMatrixEntry locations i j
      ∧ (locations.getD i (0, 0) = locations.getD j (0, 0) →
          timeMatrixEntry locations i j = 10))
    ∧ timeMatrixEntry locations i i = 0 := by
  constructor
  · intro hij
    unfold timeMatrixEntry
    rw [if_neg hij]
    unfold calculate_travel_time
    rw [show (AVERAGE_SPEED_KMH : ℝ) = 12 by norm_num [AVERAGE_SPEED_KMH]]
    dsimp only
    refine ⟨rfl, ?_, ?_⟩
    · have h0 : (0:ℝ) ≤ haversine_distance (locations.getD i (0, 0)).1
          (locations.getD i (0, 0)).2 (locations.getD j (0, 0)).1
          (locations.getD j (0, 0)).2 / 12 * 60 :=
        mul_nonneg (div_nonneg (haversine_nonneg _ _ _ _) (by norm_num)) (by norm_num)
      have h1 := pyInt_nonneg h0
      linarith
    · intro heq
      rw [heq, haversine_self]
      norm_num [pyInt]
  · unfold timeMatrixEntry
    rw [if_pos rfl]

/-- Witness for C10 at two distinct nodes with identical coordinates. -/
theorem c10_time_matrix_entries_witness :
    timeMatrixEntry [((0:ℝ), (0:ℝ)), ((0:ℝ), (0:ℝ))] 0 1 = 10
    ∧ timeMatrixEntry [((0:ℝ), (0:ℝ)), ((0:ℝ), (0:ℝ))] 0 0 = 0 := by
  obtain ⟨h1, h2⟩ := c10_time_matrix_entries [((0:ℝ), (0:ℝ)), ((0:ℝ), (0:ℝ))] 0 1
  exact ⟨(h1 (by decide)).2.2 rfl, h2⟩

/-! ## Data-model facts (claims C5, C6) -/

/-- C6: in the data model, every non-depot node's prize equals its drop
penalty, both being `int(score * 10)` of the place's utility score
(default 50.0 when the score key is absent), and the depot's prize and
penalty are 0 — their lists coincide and have the stated closed form. -/
theorem c6_prizes_equal_penalties (places : List SolverPlace) (hotel : ℝ × ℝ)
    (num_days : ℤ) :
    (create_data_model places hotel num_days).prizes
      = (create_data_model places hotel num_days).penalties
    ∧ (create_data_model places hotel num_days).prizes
      = 0 :: places.map (fun p => pyInt ((p.score.getD 50.0) * 10)) :=
  ⟨rfl, rfl⟩

/-- C5: the per-node time window is computed exactly as the specification
describes — category default (full-day fallback for unknown categories),
intersection with `[open, close - visit_duration]` when the weekday's
opening hours are known, raw opening-hours fallback when the intersection
is empty, final clamp to the day boundaries — and in the data model the
depot's window is the full day budget `[0, MAX_DAY_DURATION]` while each
place node gets its `get_time_window` shifted to minutes from day start. -/
theorem c5_time_window_derivation :
    (∀ (place : SolverPlace) (day_of_week : ℤ),
      get_time_window place day_of_week = specTimeWindow place day_of_week)
    ∧ ∀ (places : List SolverPlace) (hotel : ℝ × ℝ) (num_days : ℤ),
      (create_data_model places hotel num_days).time_windows
        = (0, MAX_DAY_DURATION) :: places.map (fun p =>
            let w := get_time_window p 1
            (max 0 (w.1 - DAY_START_TIME), min MAX_DAY_DURATION (w.2 - DAY_START_TIME))) := by
  constructor
  · intro place day
    unfold get_time_window specTimeWindow
    dsimp only
    cases h : openingHoursFor place.opening_hours day
    · rfl
    · dsimp only
      split_ifs with h1 h2 h3
      · exact absurd h2 (not_le.mpr h1)
      · rfl
      · rfl
      · exact absurd (not_lt.mp h1) h3
  · intro places hotel num_days
    rfl

/-! ## Extraction invariants (claim C9) -/

theorem extractGo_day_number (data : DataModel) :
    ∀ (walk : List (ℕ × ℤ)) (prev : Option ℕ) (acc : DayItinerary),
      (extractGo data prev acc walk).day_number = acc.day_number := by
  intro walk
  induction walk with
  | nil => intro prev acc; rfl
  | cons e rest ih =>
    obtain ⟨node, cumul⟩ := e
    intro prev acc
    simp only [extractGo]
    rw [ih]
    split_ifs <;> rfl

theorem list_forall_concat {α : Type} (p : α → Prop) (l : List α) (a : α) :
    (l ++ [a]).Forall p ↔ l.Forall p ∧ p a := by
  simp [List.forall_iff_forall_mem, List.mem_append]
  constructor
  · intro h
    exact ⟨fun x hx => h x (Or.inl hx), h a (Or.inr rfl)⟩
  · rintro ⟨h1, h2⟩ x (hx | rfl)
    · exact h1 x hx
    · exact h2

theorem extractGo_invariants (data : DataModel) :
    ∀ (walk : List (ℕ × ℤ)) (prev : Option ℕ) (acc : DayItinerary),
      acc.items.Forall (fun it => it.departure_time = it.arrival_time + it.duration) →
      acc.total_visit_time = (acc.items.map ItineraryItem.duration).sum →
      acc.total_score = (acc.items.map ItineraryItem.score).sum →
      (extractGo data prev acc walk).items.Forall
          (fun it => it.departure_time = it.arrival_time + it.duration)
        ∧ (extractGo data prev acc walk).total_visit_time
            = ((extractGo data prev acc walk).items.map ItineraryItem.duration).sum
        ∧ (extractGo data prev acc walk).total_score
            = ((extractGo data prev acc walk).items.map ItineraryItem.score).sum := by
  intro walk
  induction walk with
  | nil => intro prev acc h1 h2 h3; exact ⟨h1, h2, h3⟩
  | cons e rest ih =>
    obtain ⟨node, cumul⟩ := e
    intro prev acc h1 h2 h3
    simp only [extractGo]
    by_cases hz : node = 0
    · rw [if_pos hz]
      exact ih _ _ h1 h2 h3
    · rw [if_neg hz]
      apply ih
      · rw [list_forall_concat]
        exact ⟨h1, by dsimp only; ring⟩
      · dsimp only
        rw [List.map_append, List.sum_append, h2]
        simp
      · dsimp only
        rw [List.map_append, List.sum_append, h3]
        simp

/-- C9: every itinerary item produced by the router's extraction step has
`departure_time = arrival_time + duration`, and every extracted day's
`total_visit_time` (resp. `total_score`) is the sum of its items'
durations (resp. scores). -/
theorem c9_extraction_invariants (data : DataModel) (solution : AbstractSolution) :
    (extract_solution data solution).Forall (fun day =>
      day.items.Forall (fun it => it.departure_time = it.arrival_time + it.duration)
      ∧ day.total_visit_time = (day.items.map ItineraryItem.duration).sum
      ∧ day.total_score = (day.items.map ItineraryItem.score).sum) := by
  unfold extract_solution
  rw [List.forall_iff_forall_mem]
  intro d hd
  rw [List.mem_map] at hd
  obtain ⟨v, _, rfl⟩ := hd
  exact extractGo_invariants data (solution v) none (emptyDay (v + 1))
    (by simp [emptyDay, List.Forall]) (by simp [emptyDay]) (by simp [emptyDay])

/-! ## Solve shape and degenerate cases (claims C3, C4) -/

theorem emptyDays_map_day_number (n : ℤ) :
    (emptyDays n).map DayItinerary.day_number = List.range' 1 n.toNat := by
  rw [List.range'_eq_map_range]
  unfold emptyDays
  rw [List.map_map]
  exact List.map_congr_left (fun i _ => by simp [emptyDay, Nat.add_comm])

/-- The all-zero day predicate of claim C3. -/
def dayIsZero (d : DayItinerary) : Prop :=
  d.items = [] ∧ d.total_travel_time = 0 ∧ d.total_visit_time = 0 ∧ d.total_score = 0

theorem emptyDays_forall_zero (n : ℤ) : (emptyDays n).Forall dayIsZero := by
  rw [List.forall_iff_forall_mem]
  intro d hd
  simp [emptyDays, List.mem_map] at hd
  obtain ⟨i, _, rfl⟩ := hd
  exact ⟨rfl, rfl, rfl, rfl⟩

/-- C3: `solve` always returns `Except.ok` with exactly `numDays` day
itineraries numbered 1..numDays, and whenever the place list is empty, no
place has both coordinates, or the solver oracle finds no solution, every
returned day has zero stops and zero aggregates. -/
theorem c3_solve_shape (oracle : SolverOracle) (places : List SolverPlace)
    (hotel : Option (ℝ × ℝ)) (num_days tl : ℤ) (h : 0 < num_days) :
    ∃ days, solve oracle places hotel num_days tl = Except.ok days
      ∧ days.map DayItinerary.day_number = List.range' 1 num_days.toNat
      ∧ (days.length : ℤ) = num_days
      ∧ ((places.isEmpty = true
            ∨ (validPlaces places).isEmpty = true
            ∨ oracle (modelOf places hotel num_days) tl = none) →
          days.Forall dayIsZero) := by
  have hlen : ((emptyDays num_days).length : ℤ) = num_days := by
    simp [emptyDays, Int.toNat_of_nonneg h.le]
  unfold solve
  by_cases h1 : places.isEmpty
  · rw [if_pos h1]
    exact ⟨emptyDays num_days, rfl, emptyDays_map_day_number _, hlen,
      fun _ => emptyDays_forall_zero _⟩
  · rw [if_neg h1]
    by_cases h2 : (validPlaces places).isEmpty
    · rw [if_pos h2]
      exact ⟨emptyDays num_days, rfl, emptyDays_map_day_number _, hlen,
        fun _ => emptyDays_forall_zero _⟩
    · rw [if_neg h2]
      dsimp only
      cases h3 : oracle (modelOf places hotel num_days) tl
      · exact ⟨emptyDays num_days, rfl, emptyDays_map_day_number _, hlen,
          fun _ => emptyDays_forall_zero _⟩
      · rename_i sol
        refine ⟨extract_solution (modelOf places hotel num_days) sol, rfl, ?_, ?_, ?_⟩
        · unfold extract_solution
          rw [List.map_map, List.range'_eq_map_range]
          have hv : (modelOf places hotel num_days).num_vehicles = num_days := rfl
          rw [hv]
          refine List.map_congr_left (fun v _ => ?_)
          simp only [Function.comp_apply]
          rw [extractGo_day_number]
          simp [emptyDay, Nat.add_comm]
        · unfold extract_solution
          have : (modelOf places hotel num_days).num_vehicles = num_days := rfl
          simp [this, Int.toNat_of_nonneg h.le]
        · intro hdeg
          rcases hdeg with hd | hd | hd
          · exact absurd hd h1
          · exact absurd hd h2
          · exact Option.noConfusion hd

/-- Witness for C3: an empty place list, a failing oracle, 2 days. -/
theorem c3_solve_shape_witness :
    ∃ days, solve (fun _ _ => none) [] none 2 10 = Except.ok days
      ∧ (days.length : ℤ) = 2 ∧ days.Forall dayIsZero := by
  obtain ⟨days, hok, _, hlen, hz⟩ :=
    c3_solve_shape (fun _ _ => none) [] none 2 10 (by decide)
  exact ⟨days, hok, hlen, hz (Or.inl rfl)⟩

/-- C4 counterexample: with a non-positive day count and time budget the
router does *not* reject the call — it returns a normal (empty) result,
never an error. -/
theorem c4_counterexample :
    solve (fun _ _ => none) [] none 0 0 = Except.ok ([] : List DayItinerary)
    ∧ ∀ e : String, solve (fun _ _ => none) [] none 0 0 ≠ Except.error e := by
  constructor
  · rfl
  · intro e hc
    exact Except.noConfusion hc

/-- C4 (amended): `solve` performs no validation of its day count or time
budget: a call with non-positive `numDays` (and any, possibly
non-positive, time budget) on an empty place list silently returns the
empty list of day itineraries (`max(numDays, 0) = 0` of them) instead of
raising. -/
theorem c4_no_validation_amended (oracle : SolverOracle) (hotel : Option (ℝ × ℝ))
    (num_days tl : ℤ) (h : num_days ≤ 0) :
    solve oracle [] hotel num_days tl = Except.ok ([] : List DayItinerary) := by
  unfold solve
  simp [emptyDays, Int.toNat_of_nonpos h]

/-- Witness for C4 (amended) at `numDays = -1`, time budget `-5`. -/
theorem c4_no_validation_amended_witness :
    solve (fun _ _ => none) [] none (-1) (-5) = Except.ok ([] : List DayItinerary) :=
  c4_no_validation_amended (fun _ _ => none) none (-1) (-5) (by decide)

/-! ## Stable-sort lemmas (claim C2) -/

theorem mem_insertDesc (key : CandidatePlace → ℝ) (x a : CandidatePlace) :
    ∀ l, a ∈ insertDesc key x l ↔ a = x ∨ a ∈ l := by
  intro l
  induction l with
  | nil => simp [insertDesc]
  | cons y ys ih =>
    unfold insertDesc
    split_ifs with h
    · simp [List.mem_cons]
    · rw [List.mem_cons, ih, List.mem_cons]
      tauto

theorem pairwise_insertDesc (key : CandidatePlace → ℝ) (x : CandidatePlace) :
    ∀ l, l.Pairwise (fun a b => key b ≤ key a) →
      (insertDesc key x l).Pairwise (fun a b => key b ≤ key a) := by
  intro l
  induction l with
  | nil => intro _; simp [insertDesc]
  | cons y ys ih =>
    intro hp
    rw [List.pairwise_cons] at hp
    obtain ⟨hy, hys⟩ := hp
    unfold insertDesc
    split_ifs with h
    · rw [List.pairwise_cons]
      refine ⟨?_, ?_⟩
      · intro z hz
        rw [List.mem_cons] at hz
        rcases hz with rfl | hz
        · exact h
        · exact le_trans (hy z hz) h
      · rw [List.pairwise_cons]
        exact ⟨hy, hys⟩
    · rw [List.pairwise_cons]
      refine ⟨?_, ih hys⟩
      intro z hz
      rw [mem_insertDesc] at hz
      rcases hz with rfl | hz
      · exact (not_le.mp h).le
      · exact hy z hz

theorem pairwise_sortDesc (key : CandidatePlace → ℝ) :
    ∀ l, (sortDesc key l).Pairwise (fun a b => key b ≤ key a) := by
  intro l
  induction l with
  | nil => simp [sortDesc]
  | cons a l ih => exact pairwise_insertDesc key a _ ih

theorem mem_sortDesc (key : CandidatePlace → ℝ) (a : CandidatePlace) :
    ∀ l, a ∈ sortDesc key l ↔ a ∈ l := by
  intro l
  induction l with
  | nil => simp [sortDesc]
  | cons b l ih =>
    unfold sortDesc
    rw [mem_insertDesc, ih, List.mem_cons]

theorem filter_insertDesc (key : CandidatePlace → ℝ) (x : CandidatePlace) (s : ℝ) :
    ∀ l, (insertDesc key x l).filter (fun a => decide (key a = s))
      = if key x = s
        then x :: l.filter (fun a => decide (key a = s))
        else l.filter (fun a => decide (key a = s)) := by
  intro l
  induction l with
  | nil =>
    by_cases hx : key x = s <;>
      simp [insertDesc, List.filter_cons, hx]
  | cons y ys ih =>
    unfold insertDesc
    by_cases hx : key x = s
    · rw [if_pos hx]
      split_ifs with hle
      · simp [List.filter_cons, hx]
      · have hy : ¬ (key y = s) := fun hys => hle (le_of_eq (hys.trans hx.symm))
        simp [List.filter_cons, hy, ih, hx]
    · rw [if_neg hx]
      split_ifs with hle
      · simp [List.filter_cons, hx]
      · by_cases hy : key y = s <;>
          simp [List.filter_cons, hy, ih, hx]

theorem filter_sortDesc (key : CandidatePlace → ℝ) (s : ℝ) :
    ∀ l, (sortDesc key l).filter (fun a => decide (key a = s))
      = l.filter (fun a => decide (key a = s)) := by
  intro l
  induction l with
  | nil => rfl
  | cons a l ih =>
    unfold sortDesc
    rw [filter_insertDesc]
    by_cases ha : key a = s <;>
      simp [List.filter_cons, ha, ih]

/-! ## Banker's-rounding lemmas (for the `round(score, 2)` in `to_dict`) -/

theorem eq_floor_add_half {x : ℝ} (h : Int.fract x = 1 / 2) : x = (⌊x⌋ : ℝ) + 1 / 2 := by
  have hf := Int.floor_add_fract x
  rw [h] at hf
  linarith

theorem roundHalfEven_ge_floor (x : ℝ) : ⌊x⌋ ≤ roundHalfEven x := by
  unfold roundHalfEven
  split_ifs with h
  · have hx := eq_floor_add_half h
    have h1 : x / 2 - 1 / 2 < ((round (x / 2) : ℤ) : ℝ) := by
      rw [round_eq]
      have h2 := Int.sub_one_lt_floor (x / 2 + 1 / 2)
      push_cast at h2 ⊢
      linarith
    have h3 : (⌊x⌋ : ℝ) - 1 < ((2 * round (x / 2) : ℤ) : ℝ) := by
      push_cast
      push_cast at h1
      linarith
    have h4 : ⌊x⌋ - 1 < 2 * round (x / 2) := by exact_mod_cast h3
    omega
  · rw [round_eq]
    exact Int.floor_mono (by linarith)

theorem roundHalfEven_le_floor_add_one (x : ℝ) : roundHalfEven x ≤ ⌊x⌋ + 1 := by
  unfold roundHalfEven
  split_ifs with h
  · have hx := eq_floor_add_half h
    have h1 : ((round (x / 2) : ℤ) : ℝ) ≤ x / 2 + 1 / 2 := by
      rw [round_eq]
      exact_mod_cast Int.floor_le (x / 2 + 1 / 2)
    have h3 : ((2 * round (x / 2) : ℤ) : ℝ) < (⌊x⌋ : ℝ) + 2 := by
      push_cast
      push_cast at h1
      linarith
    have h4 : 2 * round (x / 2) < ⌊x⌋ + 2 := by exact_mod_cast h3
    omega
  · rw [round_eq]
    have h1 : ⌊x + 1 / 2⌋ ≤ ⌊x + 1⌋ := Int.floor_mono (by linarith)
    have h2 : ⌊x + 1⌋ = ⌊x⌋ + 1 := by
      have h3 := Int.floor_add_int x 1
      rw [Int.cast_one] at h3
      exact h3
    omega

theorem int_le_roundHalfEven {a : ℤ} {x : ℝ} (h : (a : ℝ) ≤ x) : a ≤ roundHalfEven x := by
  have h1 : a ≤ ⌊x⌋ := Int.le_floor.mpr h
  have h2 := roundHalfEven_ge_floor x
  omega

theorem roundHalfEven_mono {x y : ℝ} (hxy : x ≤ y) :
    roundHalfEven x ≤ roundHalfEven y := by
  by_cases hx : Int.fract x = 1 / 2 <;> by_cases hy : Int.fract y = 1 / 2
  · rcases eq_or_lt_of_le hxy with rfl | hlt
    · exact le_refl _
    · have hx' := eq_floor_add_half hx
      have hy' := eq_floor_add_half hy
      have hfl : ⌊x⌋ < ⌊y⌋ := by
        have hcast : (⌊x⌋ : ℝ) < (⌊y⌋ : ℝ) := by linarith
        exact_mod_cast hcast
      have h1 := roundHalfEven_le_floor_add_one x
      have h2 := roundHalfEven_ge_floor y
      omega
  · have hx' := eq_floor_add_half hx
    have h1 := roundHalfEven_le_floor_add_one x
    have h2 : ⌊x⌋ + 1 ≤ round y := by
      rw [round_eq]
      apply Int.le_floor.mpr
      push_cast
      linarith
    have h3 : roundHalfEven y = round y := by
      unfold roundHalfEven
      rw [if_neg hy]
    omega
  · have hy' := eq_floor_add_half hy
    have hne : x ≠ y := fun he => hx (he ▸ hy)
    have hlt : x < y := lt_of_le_of_ne hxy hne
    have h1 : roundHalfEven x = round x := by
      unfold roundHalfEven
      rw [if_neg hx]
    have h2 : round x ≤ ⌊y⌋ := by
      rw [round_eq]
      have h4 : ⌊x + 1 / 2⌋ < ⌊y⌋ + 1 := by
        rw [Int.floor_lt]
        push_cast
        linarith
      omega
    have h3 := roundHalfEven_ge_floor y
    omega
  · unfold roundHalfEven
    rw [if_neg hx, if_neg hy, round_eq, round_eq]
    exact Int.floor_mono (by linarith)

theorem pyRound2_mono {x y : ℝ} (h : x ≤ y) : pyRound2 x ≤ pyRound2 y := by
  unfold pyRound2
  have h1 : roundHalfEven (100 * x) ≤ roundHalfEven (100 * y) :=
    roundHalfEven_mono (by linarith)
  have h2 : ((roundHalfEven (100 * x) : ℤ) : ℝ) ≤ ((roundHalfEven (100 * y) : ℤ) : ℝ) := by
    exact_mod_cast h1
  linarith

theorem pyRound2_ge_threshold {x : ℝ} (h : MIN_SCORE_THRESHOLD ≤ x) :
    MIN_SCORE_THRESHOLD ≤ pyRound2 x := by
  unfold MIN_SCORE_THRESHOLD at h
  unfold pyRound2 MIN_SCORE_THRESHOLD
  have h1 : (4000 : ℤ) ≤ roundHalfEven (100 * x) := by
    apply int_le_roundHalfEven
    push_cast
    linarith
  have h2 : ((4000 : ℤ) : ℝ) ≤ ((roundHalfEven (100 * x) : ℤ) : ℝ) := by exact_mod_cast h1
  push_cast at h2
  linarith

/-! ## Claim C2 -/

/-- C2: every ranked place has (raw and rounded) score at least
`MIN_SCORE_THRESHOLD = 40`, the ranked list and the returned dictionary
list are sorted by score non-increasing, and the sort is stable: for each
score value the sub-list of ranked candidates with that exact score is the
qualified candidates with that score in input order. -/
theorem c2_rank_places_sorted_filtered_stable (ps : List PlaceInput)
    (w : Option Weather) (c : Option Centroid) :
    (rankedCandidates ps w c).Forall (fun cd => MIN_SCORE_THRESHOLD ≤ cd.score)
    ∧ (rank_places ps w c).Forall (fun d => MIN_SCORE_THRESHOLD ≤ d.score)
    ∧ (rankedCandidates ps w c).Pairwise (fun a b => b.score ≤ a.score)
    ∧ (rank_places ps w c).Pairwise (fun a b => b.score ≤ a.score)
    ∧ ∀ s : ℝ, (rankedCandidates ps w c).filter (fun cd => decide (cd.score = s))
        = (qualifiedCandidates ps w c).filter (fun cd => decide (cd.score = s)) := by
  have hqual : ∀ cd ∈ rankedCandidates ps w c, MIN_SCORE_THRESHOLD ≤ cd.score := by
    intro cd hcd
    unfold rankedCandidates at hcd
    rw [mem_sortDesc] at hcd
    unfold qualifiedCandidates at hcd
    rw [List.mem_filter] at hcd
    exact of_decide_eq_true hcd.2
  have hpair : (rankedCandidates ps w c).Pairwise (fun a b => b.score ≤ a.score) :=
    pairwise_sortDesc (fun cd => cd.score) _
  refine ⟨List.forall_iff_forall_mem.mpr hqual, ?_, hpair, ?_, ?_⟩
  · unfold rank_places
    split_ifs with hemp
    · trivial
    · rw [List.forall_iff_forall_mem]
      intro d hd
      rw [List.mem_map] at hd
      obtain ⟨cd, hcd, rfl⟩ := hd
      exact pyRound2_ge_threshold (hqual cd hcd)
  · unfold rank_places
    split_ifs with hemp
    · exact List.Pairwise.nil
    · rw [List.pairwise_map]
      exact hpair.imp (fun h => pyRound2_mono h)
  · intro s
    unfold rankedCandidates
    exact filter_sortDesc (fun cd => cd.score) s _

end

end GoTravel
